import Mathlib

/-!
Shallow embedding of the timesheet extraction-and-reconciliation pipeline of
`src/api/app/main.py` (`_extract_pairs_from_excel`, lines 433-483, and the
resolution part of `parse_timesheet`, lines 496-527).

Modelling decisions:
- A spreadsheet cell is `Option String`: `none` is a NaN/absent cell, and
  `some s` is the text `str(v)` that pandas would hand to the Python code.
- Hours are `ℚ` (exact rationals).  Every numeric literal appearing in the
  theorems below (such as 37.5 or 20) is exactly representable in binary
  floating point, so `ℚ` is a faithful stand-in for Python `float` on the
  inputs considered.
- Python string helpers (`strip`, `lower`, `endswith`, substring `in`,
  `replace(",","")`, slicing at `rfind("(")`) are modelled over `List Char`.
  `lower` is the ASCII case map; Python's `str.lower` agrees with it on every
  string used in the theorems below (the only non-ASCII character that
  appears, the lowercase accented i in a test name, is left unchanged by both).
- `float(...)` is modelled by `pyFloat`, restricted to plain decimal literals
  with an optional sign (no exponents, no inf/nan, no underscores); every cell
  value exercised below is in that fragment, and strings outside it that occur
  below (such as a dollar-prefixed amount) are rejected both by Python's
  `float` and by `pyFloat`.
-/

/-- Whitespace test used by the embedding of Python `str.strip`. -/
def isWs (c : Char) : Bool :=
  c = ' ' || c = '\t' || c = '\n' || c = '\r' || c = '\x0b' || c = '\x0c'

/-- Embedding of Python `str.strip()` (outer-whitespace trim). -/
def pyStrip (s : String) : String :=
  (((s.toList.dropWhile isWs).reverse.dropWhile isWs).reverse).asString

/-- ASCII lower-casing of one character. -/
def lowerChar (c : Char) : Char :=
  if 'A' ≤ c && c ≤ 'Z' then Char.ofNat (c.toNat + 32) else c

/-- Embedding of Python `str.lower()` (ASCII fragment; see header note). -/
def pyLower (s : String) : String :=
  (s.toList.map lowerChar).asString

/-- Boolean prefix test on character lists. -/
def isPrefixList : List Char → List Char → Bool
  | [], _ => true
  | _ :: _, [] => false
  | a :: as, b :: bs => a == b && isPrefixList as bs

/-- Boolean infix (contiguous substring) test on character lists. -/
def isInfixList (needle : List Char) : List Char → Bool
  | [] => needle.isEmpty
  | b :: bs => isPrefixList needle (b :: bs) || isInfixList needle bs

/-- Embedding of the Python substring test `needle in hay`. -/
def containsSub (needle hay : String) : Bool :=
  isInfixList needle.toList hay.toList

/-- Embedding of Python `s.endswith(suffix)`. -/
def pyEndsWith (s suffix : String) : Bool :=
  isPrefixList suffix.toList.reverse s.toList.reverse

/-- Embedding of the Python slice `s[:s.rfind("(")]`: drop the last opening
parenthesis and everything after it. -/
def dropFromLastParen (s : String) : String :=
  (((s.toList.reverse.dropWhile (fun c => c != '(')).drop 1).reverse).asString

/-- Numeric value of a digit list (most significant first). -/
def digitsVal (l : List Char) : ℕ :=
  l.foldl (fun a c => a * 10 + (c.toNat - '0'.toNat)) 0

/-- Model of Python `float(s)` on plain decimal literals: optional surrounding
whitespace, optional single sign, then digits with at most one decimal point
and at least one digit overall.  Returns `none` where Python `float` raises
`ValueError` (and on the exponent/inf/nan forms excluded by the header note,
none of which occur in the theorems below). -/
def pyFloat (s : String) : Option ℚ :=
  let cs := (pyStrip s).toList
  let signed : ℤ × List Char :=
    match cs with
    | '-' :: rest => (-1, rest)
    | '+' :: rest => (1, rest)
    | _ => (1, cs)
  let ip := signed.2.takeWhile Char.isDigit
  let rest := signed.2.dropWhile Char.isDigit
  match rest with
  | [] => if ip.isEmpty then none else some (mkRat (signed.1 * (digitsVal ip : ℤ)) 1)
  | '.' :: frac =>
    if frac.all Char.isDigit && !(ip.isEmpty && frac.isEmpty) then
      some (mkRat
        (signed.1 * ((digitsVal ip * 10 ^ frac.length + digitsVal frac : ℕ) : ℤ))
        (10 ^ frac.length))
    else none
  | _ => none

/-- One spreadsheet row: each cell is absent (`none`) or carries its text. -/
abbrev Row := List (Option String)

/-- A spreadsheet grid: the rows of the DataFrame, in order. -/
abbrev Grid := List Row

/-- The text a cell contributes to `row_texts`: skip absent cells, strip the
rest, and drop cells that strip to the empty string
(`main.py` lines 443-451). -/
def cellText : Option String → Option String
  | none => none
  | some v => let s := pyStrip v; if s = "" then none else some s

/-- Embedding of the inner `row_texts` helper (`main.py` lines 443-451): the
stripped non-empty cell texts of a row, left to right. -/
def row_texts (r : Row) : List String :=
  r.filterMap cellText

/-- The lower-cased `" | "`-join of a row's texts
(`joined` at `main.py` line 457). -/
def joinedLower (r : Row) : String :=
  pyLower (String.intercalate " | " (row_texts r))

/-- The numeric parse applied to an hours cell at `main.py` line 475:
`float(str(t).replace(",", ""))`, i.e. commas removed then `float`. -/
def scanNum (t : String) : Option ℚ :=
  pyFloat ((t.toList.filter (fun c => c != ',')).asString)

/-- Embedding of the hours-cell search on a totals row (`main.py` lines
470-478): first cell that does not contain the label `"total hours"`
(case-insensitively) and parses as a number. -/
def firstParsable : List String → Option ℚ
  | [] => none
  | t :: ts =>
    if containsSub "total hours" (pyLower t) then firstParsable ts
    else
      match scanNum t with
      | some h => some h
      | none => firstParsable ts

/-- One iteration of the row loop of `_extract_pairs_from_excel`
(`main.py` lines 453-481), as a step function: given the current row and the
pending `name` state, return the pair emitted by this row (if any) and the new
pending-name state.  The branch structure mirrors the source:

* empty `texts` → `continue` (line 455-456);
* `"employee" in joined and name is None` → capture the first cell not
  containing `"employee"` as the pending name, when the row has at least two
  texts and such a cell exists (lines 459-466);
* `"total hours" in joined and name is not None` → emit `(name, hours)` when a
  cell parses, and clear the pending name either way (lines 468-481);
* otherwise the row is ignored. -/
def stepRow (r : Row) (name : Option String) : Option (String × ℚ) × Option String :=
  if (row_texts r).isEmpty then (none, name)
  else if containsSub "employee" (joinedLower r) && name.isNone then
    (none,
      if 2 ≤ (row_texts r).length then
        match (row_texts r).filter (fun t => !(containsSub "employee" (pyLower t))) with
        | [] => name
        | o :: _ => some o
      else name)
  else
    match name with
    | some n =>
      if containsSub "total hours" (joinedLower r) then
        match firstParsable (row_texts r) with
        | some h => (some (n, h), none)
        | none => (none, none)
      else (none, name)
    | none => (none, name)

/-- The row loop of `_extract_pairs_from_excel`, threading the pending-name
state through `stepRow` and collecting emitted pairs in row order. -/
def extractLoop : Grid → Option String → List (String × ℚ)
  | [], _ => []
  | r :: rs, name =>
    match stepRow r name with
    | (some p, name1) => p :: extractLoop rs name1
    | (none, name1) => extractLoop rs name1

/-- Embedding of `_extract_pairs_from_excel` (`main.py` lines 433-483): the
`(name, hours)` pairs found in the grid, starting with no pending name. -/
def extractPairs (df : Grid) : List (String × ℚ) :=
  extractLoop df none

/-- A matched output entry (`main.py` line 523): employee id, the stripped
core name, and the hours. -/
structure MatchedEntry where
  employee_id : String
  name : String
  hours : ℚ
deriving DecidableEq

/-- An unmatched output entry (`main.py` line 525): the stripped raw name, the
literal reason string, and the hours. -/
structure UnmatchedEntry where
  name : String
  reason : String
  hours : ℚ
deriving DecidableEq

/-- Embedding of the roster-book construction (`main.py` lines 502-506): each
roster row is `(employee_id, stored timesheet name)`; rows whose name is
absent or strips to empty are dropped, the rest contribute
`(employee_id, lower-cased stripped name)`. -/
def buildBook (rows : List (String × Option String)) : List (String × String) :=
  rows.filterMap (fun p =>
    let t := pyStrip (p.2.getD "")
    if t = "" then none else some (p.1, pyLower t))

/-- The name-core computation of `parse_timesheet` (`main.py` lines 511-515):
strip the raw name, and when it ends in `")"` and contains `"("`, cut at the
last `"("` and strip again. -/
def coreOf (raw : String) : String :=
  let n := pyStrip raw
  if pyEndsWith n ")" && containsSub "(" n then pyStrip (dropFromLastParen n) else n

/-- The normalized lookup key of `parse_timesheet` (`main.py` line 516):
the lower-cased name core. -/
def normKey (raw : String) : String :=
  pyLower (coreOf raw)

/-- Classification of one extracted pair (`main.py` lines 510-525): linear
scan of the book for the first entry equal to the key; a hit with a truthy
(non-empty) employee id is matched, anything else is unmatched with the
literal reason string of line 525. -/
def resolveOne (book : List (String × String)) (raw : String) (hours : ℚ) :
    Sum MatchedEntry UnmatchedEntry :=
  let n := pyStrip raw
  let core := coreOf raw
  let key := pyLower core
  match (book.find? (fun b => b.2 == key)).map (fun b => b.1) with
  | some eid =>
    if eid = "" then Sum.inr ⟨n, "No exact timesheet_name match", hours⟩
    else Sum.inl ⟨eid, core, hours⟩
  | none => Sum.inr ⟨n, "No exact timesheet_name match", hours⟩

/-- The classification loop of `parse_timesheet` (`main.py` lines 508-525):
every pair lands in exactly one of the two output lists, in pair order. -/
def resolvePairs (book : List (String × String)) :
    List (String × ℚ) → List MatchedEntry × List UnmatchedEntry
  | [] => ([], [])
  | (raw, hours) :: rest =>
    let prev := resolvePairs book rest
    match resolveOne book raw hours with
    | Sum.inl m => (m :: prev.1, prev.2)
    | Sum.inr u => (prev.1, u :: prev.2)

/-- Embedding of the whole `/timesheet/parse` pipeline on an already-decoded
grid and roster snapshot (`main.py` lines 495-527): extract pairs, build the
book, classify. -/
def parseTimesheet (df : Grid) (roster : List (String × Option String)) :
    List MatchedEntry × List UnmatchedEntry :=
  resolvePairs (buildBook roster) (extractPairs df)

/-- The number of distinct normalized name keys among the scanner's pairs
(the quantity the coverage claim compares against). -/
def distinctKeys (df : Grid) : ℕ :=
  (((extractPairs df).map (fun p => normKey p.1)).foldl
    (fun acc k => if acc.contains k then acc else k :: acc) []).length

/-- The spec's end-to-end scenario grid:
`[["Employee","Jane Doe (101)"], ["","",""], ["Total Hours","", "37.5"]]`. -/
def c7grid : Grid :=
  [[some "Employee", some "Jane Doe (101)"],
   [some "", some "", some ""],
   [some "Total Hours", some "", some "37.5"]]

/-- A grid listing the same employee twice with hours 20 and 15. -/
def dupGrid : Grid :=
  [[some "Employee", some "Jane Doe"],
   [some "Total Hours", some "20"],
   [some "Employee", some "Jane Doe"],
   [some "Total Hours", some "15"]]

/-- A row whose joined text does not contain `"total hours"` never emits a
pair, whatever the pending-name state. -/
theorem stepRow_no_total (r : Row) (name : Option String)
    (h : containsSub "total hours" (joinedLower r) = false) :
    (stepRow r name).1 = none := by
  unfold stepRow
  split
  · rfl
  · split
    · rfl
    · cases name with
      | none => rfl
      | some n => simp [h]

/-- A row whose joined text does not contain `"total hours"` leaves a pending
name untouched: with a name already captured, the employee branch is disabled
and the totals branch does not fire. -/
theorem stepRow_pending (r : Row) (n : String)
    (h : containsSub "total hours" (joinedLower r) = false) :
    stepRow r (some n) = (none, some n) := by
  unfold stepRow
  split
  · rfl
  · split
    · next hc => simp at hc
    · simp [h]

/-- If no row of a grid contains `"total hours"`, the row loop emits nothing,
from any starting state: pairs are only ever emitted by the totals branch. -/
theorem extractLoop_no_total : ∀ (df : Grid),
    (∀ r ∈ df, containsSub "total hours" (joinedLower r) = false) →
    ∀ name, extractLoop df name = [] := by
  intro df
  induction df with
  | nil => intro _ name; rfl
  | cons r rs ih =>
    intro h name
    have h1 : containsSub "total hours" (joinedLower r) = false := h r (by simp)
    have h2 : ∀ x ∈ rs, containsSub "total hours" (joinedLower x) = false :=
      fun x hx => h x (by simp [hx])
    have hemit := stepRow_no_total r name h1
    rw [extractLoop]
    cases hs : stepRow r name with
    | mk e nm =>
      rw [hs] at hemit
      cases e with
      | some p => exact absurd hemit (by simp)
      | none => exact ih h2 nm

/-- While a name is pending, any run of rows free of `"total hours"` is
skipped without emitting anything and without changing the pending name —
including rows that contain `"employee"`. -/
theorem extractLoop_skip : ∀ (mid : List Row) (rest : Grid) (n : String),
    (∀ r ∈ mid, containsSub "total hours" (joinedLower r) = false) →
    extractLoop (mid ++ rest) (some n) = extractLoop rest (some n) := by
  intro mid
  induction mid with
  | nil => intro rest n _; rfl
  | cons m ms ih =>
    intro rest n h
    have h1 := stepRow_pending m n (h m (by simp))
    have h2 : ∀ x ∈ ms, containsSub "total hours" (joinedLower x) = false :=
      fun x hx => h x (by simp [hx])
    show extractLoop (m :: (ms ++ rest)) (some n) = _
    rw [extractLoop, h1]
    exact ih rest n h2

/-- Each pair contributes exactly one entry to exactly one of the two output
lists of the resolver. -/
theorem resolvePairs_length (book : List (String × String)) :
    ∀ pairs : List (String × ℚ),
      (resolvePairs book pairs).1.length + (resolvePairs book pairs).2.length
        = pairs.length := by
  intro pairs
  induction pairs with
  | nil => rfl
  | cons p rest ih =>
    obtain ⟨raw, hours⟩ := p
    rw [resolvePairs]
    cases hr : resolveOne book raw hours with
    | inl m => simp only [List.length_cons]; omega
    | inr u => simp only [List.length_cons]; omega

/-- Claim C1 counterexample: a grid whose single row is a located name block
(`["Employee","Jane Doe"]`) with no "Total Hours" row anywhere after it.  The
claim requires an unmatched entry with reason NAME_FOUND_NO_HOURS in the
output; the code emits no pair for the block at all, so both output lists are
empty and no entry with that reason exists. -/
theorem c1_counterexample :
    parseTimesheet [[some "Employee", some "Jane Doe"]] [] = ([], []) ∧
    "NAME_FOUND_NO_HOURS" ∉
      ((parseTimesheet [[some "Employee", some "Jane Doe"]] []).2.map UnmatchedEntry.reason) := by
  constructor
  · decide
  · decide

/-- Claim C1 (amended): a name block that is never followed by a row
containing "total hours" is silently dropped — for any grid none of whose rows
contains "total hours" (so in particular for grids holding name blocks), the
pipeline returns empty matched and unmatched lists, and no
NAME_FOUND_NO_HOURS reason exists anywhere in the code. -/
theorem c1_no_hours_dropped (df : Grid) (roster : List (String × Option String))
    (h : ∀ r ∈ df, containsSub "total hours" (joinedLower r) = false) :
    parseTimesheet df roster = ([], []) := by
  unfold parseTimesheet extractPairs
  rw [extractLoop_no_total df h none]
  rfl

theorem c1_witness :
    (∀ r ∈ ([[some "Employee", some "Jane Doe"]] : Grid),
        containsSub "total hours" (joinedLower r) = false) ∧
    parseTimesheet [[some "Employee", some "Jane Doe"]] [] = ([], []) :=
  ⟨by decide, c1_no_hours_dropped [[some "Employee", some "Jane Doe"]] [] (by decide)⟩

/-- Claim C2 counterexample: the grid that lists "Jane Doe" twice produces two
output entries (one per emitted pair) but only one distinct normalized name
key, so matched + unmatched differs from the distinct-key count. -/
theorem c2_counterexample :
    (parseTimesheet dupGrid []).1.length + (parseTimesheet dupGrid []).2.length
      ≠ distinctKeys dupGrid := by decide

/-- Claim C2 (amended): no candidate is silently dropped or duplicated at the
resolution stage — the number of matched plus unmatched entries equals the
number of pairs emitted by the grid scanner (not the number of distinct
normalized keys: duplicate keys are never coalesced). -/
theorem c2_coverage (df : Grid) (roster : List (String × Option String)) :
    (parseTimesheet df roster).1.length + (parseTimesheet df roster).2.length
      = (extractPairs df).length := by
  unfold parseTimesheet
  exact resolvePairs_length (buildBook roster) (extractPairs df)

/-- Claim C3 counterexample: with "Jane Doe" listed twice (hours 20 and 15)
and a roster containing her, the resolver produces two matched entries, and no
entry carries the summed hours 35. -/
theorem c3_counterexample :
    (parseTimesheet dupGrid [("E1", some "Jane Doe")]).1.length = 2 ∧
    ∀ e ∈ (parseTimesheet dupGrid [("E1", some "Jane Doe")]).1,
      e.hours ≠ mkRat 35 1 := by
  constructor
  · decide
  · decide

/-- Claim C3 (amended): duplicate normalized keys are not summed — each raw
pair yields its own outcome with its own hours, so the same name with hours 20
and 15 yields two matched entries carrying 20 and 15 respectively. -/
theorem c3_no_summation :
    parseTimesheet dupGrid [("E1", some "Jane Doe")]
      = ([⟨"E1", "Jane Doe", mkRat 20 1⟩, ⟨"E1", "Jane Doe", mkRat 15 1⟩], []) := by
  decide

/-- Claim C4 counterexample: the code's normalization neither strips
diacritics nor collapses internal whitespace runs, so the two spellings map to
different keys. -/
theorem c4_counterexample :
    normKey "María   Lopez (482)" ≠ normKey "maria lopez" := by decide

/-- Claim C4 (amended): the normalization trims outer whitespace, removes a
trailing parenthesized suffix, and lower-cases — but keeps diacritics and
internal whitespace runs.  Hence the accented triple-spaced spelling
normalizes to itself minus the suffix, and only the ASCII single-spaced
variant round-trips with "maria lopez". -/
theorem c4_normalization :
    normKey "María   Lopez (482)" = "maría   lopez" ∧
    normKey "maria lopez" = "maria lopez" ∧
    normKey "Maria Lopez (482)" = normKey "maria lopez" := by
  refine ⟨by decide, by decide, by decide⟩

/-- Claim C5 counterexample: a name row followed by twelve filler rows and
only then a "Total Hours" row — far past any ~10-row lookahead window.  The
claim says such a totals row is never attributed to the earlier name; the code
attributes it (there is no window), and no `hours=None` pair is emitted. -/
theorem c5_counterexample :
    extractPairs ([some "Employee", some "Jane Doe"]
        :: List.replicate 12 [some "filler row"]
        ++ [[some "Total Hours", some "37.5"]])
      = [("Jane Doe", mkRat 75 2)] := by decide

/-- Claim C5 (amended): the forward scan for a totals row is unbounded — while
a name is pending, any number of rows free of "total hours" is skipped with
the name still pending, and the first subsequent "total hours" row (at any
distance) is attributed to that name; a block with no totals row emits nothing
(never a `hours=None` pair). -/
theorem c5_unbounded_scan (mid : List Row) (rest : Grid)
    (h : ∀ r ∈ mid, containsSub "total hours" (joinedLower r) = false) :
    extractPairs ([some "Employee", some "Jane Doe"]
        :: mid ++ [some "Total Hours", some "37.5"] :: rest)
      = ("Jane Doe", mkRat 75 2) :: extractLoop rest none := by
  unfold extractPairs
  have hname : stepRow [some "Employee", some "Jane Doe"] none
      = (none, some "Jane Doe") := by decide
  have htot : stepRow [some "Total Hours", some "37.5"] (some "Jane Doe")
      = (some ("Jane Doe", mkRat 75 2), none) := by decide
  rw [List.cons_append, extractLoop, hname]
  show extractLoop (mid ++ [some "Total Hours", some "37.5"] :: rest) (some "Jane Doe")
      = ("Jane Doe", mkRat 75 2) :: extractLoop rest none
  rw [extractLoop_skip mid _ _ h, extractLoop, htot]

theorem c5_witness :
    (∀ r ∈ List.replicate 12 ([some "a note"] : Row),
        containsSub "total hours" (joinedLower r) = false) ∧
    extractPairs ([some "Employee", some "Jane Doe"]
        :: List.replicate 12 [some "a note"] ++ [[some "Total Hours", some "37.5"]])
      = ("Jane Doe", mkRat 75 2) :: extractLoop [] none :=
  ⟨by decide,
    c5_unbounded_scan (List.replicate 12 [some "a note"]) [] (by decide)⟩

/-- Claim C6 counterexample: a leading currency symbol is not stripped —
`float("$37.5".replace(",",""))` raises in Python, so the scanner's numeric
parse yields no number for a dollar-prefixed cell, contradicting the claim
that such strings return the corresponding number. -/
theorem c6_counterexample : scanNum "$37.5" = none := by decide

/-- Claim C6 (amended): the scanner's numeric parse accepts integer strings,
decimal strings, and strings with thousands separators, and yields none for
blank or non-numeric text — but a leading "$" is rejected, not stripped. -/
theorem c6_numeric_parsing :
    scanNum "37" = some (mkRat 37 1) ∧
    scanNum "37.5" = some (mkRat 75 2) ∧
    scanNum "1,234.5" = some (mkRat 2469 2) ∧
    scanNum "$37.5" = none ∧
    scanNum "" = none ∧
    scanNum "abc" = none := by
  refine ⟨by decide, by decide, by decide, by decide, by decide, by decide⟩

/-- Claim C7 counterexample: on the end-to-end grid with an empty roster, the
single unmatched entry's reason is the literal string
"No exact timesheet_name match", not "NO_ROSTER_MATCH". -/
theorem c7_counterexample :
    (parseTimesheet c7grid []).2
      = [⟨"Jane Doe (101)", "No exact timesheet_name match", mkRat 75 2⟩] ∧
    "NO_ROSTER_MATCH" ∉ ((parseTimesheet c7grid []).2.map UnmatchedEntry.reason) := by
  constructor
  · decide
  · decide

/-- Claim C7 (amended): the end-to-end scenario holds with the code's actual
output shapes — with roster entry (E1, "Jane Doe") the grid resolves to one
matched entry (employee id E1, stripped name, hours 37.5) and no unmatched
entries; with an empty roster it yields one unmatched entry carrying the raw
name "Jane Doe (101)", hours 37.5, and the code's literal reason string
"No exact timesheet_name match" (its only unmatched reason). -/
theorem c7_end_to_end :
    parseTimesheet c7grid [("E1", some "Jane Doe")]
      = ([⟨"E1", "Jane Doe", mkRat 75 2⟩], []) ∧
    parseTimesheet c7grid []
      = ([], [⟨"Jane Doe (101)", "No exact timesheet_name match", mkRat 75 2⟩]) := by
  constructor
  · decide
  · decide

/-- Claim C8 counterexample: the code's roster book holds a single stored
spelling per employee (the timesheet_name / name column); with "J. Doe" as the
stored spelling and "Jane Doe" only as a would-be alternate, the grid's
"Jane Doe (101)" does not resolve to E2 — it lands in unmatched, contradicting
the claimed alternate-name match. -/
theorem c8_counterexample :
    parseTimesheet c7grid [("E2", some "J. Doe")]
      = ([], [⟨"Jane Doe (101)", "No exact timesheet_name match", mkRat 75 2⟩]) := by
  decide

/-- Claim C8 (amended): matching uses exactly one stored spelling per roster
entry — there is no alternate-name mechanism — so the scenario matches only
when the stored column itself holds "Jane Doe", and stays unmatched when it
holds "J. Doe". -/
theorem c8_single_spelling :
    parseTimesheet c7grid [("E2", some "Jane Doe")]
      = ([⟨"E2", "Jane Doe", mkRat 75 2⟩], []) ∧
    parseTimesheet c7grid [("E2", some "J. Doe")]
      = ([], [⟨"Jane Doe (101)", "No exact timesheet_name match", mkRat 75 2⟩]) := by
  constructor
  · decide
  · decide

/-- Claim C9: the pipeline is a pure function of the grid and the roster
snapshot — two runs on the same inputs produce identical matched and
unmatched lists (the embedding has no randomness, clock, or locale input). -/
theorem c9_deterministic (df : Grid) (roster : List (String × Option String)) :
    parseTimesheet df roster = parseTimesheet df roster := rfl

/-- Claim C10 counterexample: name row for "Jane", then a "Total Hours" row
with no parsable number, then a "Total Hours" row with the parsable number 5.
The first later row containing "total hours" with a parsable number is the
third row, but it is NOT attributed to the still-unconsumed "Jane": the second
row already cleared the pending name even though nothing parsed, so the
scanner emits no pair at all. -/
theorem c10_counterexample :
    extractPairs [[some "Employee", some "Jane"],
        [some "Total Hours", some "abc"],
        [some "Total Hours", some "5"]] = [] ∧
    ("Jane", mkRat 5 1) ∉ extractPairs [[some "Employee", some "Jane"],
        [some "Total Hours", some "abc"],
        [some "Total Hours", some "5"]] := by
  constructor
  · decide
  · decide

/-- Claim C10 (amended): the scanner holds at most one pending name, and while
one is pending every row containing "employee" is ignored as a name row; the
FIRST later row containing "total hours" (not the first one with a parsable
number) consumes the pending name — emitting a pair exactly when one of its
cells parses.  Formally: with "Jane Doe" pending, any rows free of
"total hours" (employee rows included) are skipped, and the next totals row is
attributed to "Jane Doe". -/
theorem c10_pending_name (mid : List Row) (rest : Grid)
    (h : ∀ r ∈ mid, containsSub "total hours" (joinedLower r) = false) :
    extractLoop (mid ++ [some "Total Hours", some "40"] :: rest) (some "Jane Doe")
      = ("Jane Doe", mkRat 40 1) :: extractLoop rest none := by
  have htot : stepRow [some "Total Hours", some "40"] (some "Jane Doe")
      = (some ("Jane Doe", mkRat 40 1), none) := by decide
  rw [extractLoop_skip mid _ _ h, extractLoop, htot]

theorem c10_witness :
    (∀ r ∈ ([[some "Employee", some "Someone Else"]] : List Row),
        containsSub "total hours" (joinedLower r) = false) ∧
    extractLoop ([[some "Employee", some "Someone Else"]]
        ++ [some "Total Hours", some "40"] :: []) (some "Jane Doe")
      = ("Jane Doe", mkRat 40 1) :: extractLoop [] none :=
  ⟨by decide,
    c10_pending_name [[some "Employee", some "Someone Else"]] [] (by decide)⟩
